import Mathlib

/-!
Verification of the XRay flight-data-recorder (FDR) logging lifecycle
controller from `lib/xray/xray_fdr_logging.cc` (compiler-rt).

The C++ file is a process-wide state machine over two atomic registers
(`LoggingStatus : XRayLogInitStatus` and `LogFlushStatus : XRayLogFlushStatus`),
a shared `BufferQueue` handle `BQ`, and an options snapshot `FDROptions`.
We give a sequential shallow embedding: each operation is a pure function from
an explicit state (plus an environment supplying the results of the external
collaborators: CPU-feature probe, TSC frequency, default log-fd resolution,
`BufferQueue` construction, `retryingWriteAll` outcomes) to a result and a new
state.  Atomic compare-and-swap on a register becomes, in the sequential model,
an equality test on the corresponding state field.  Diagnostics (`Report`) are
accumulated in a `reports` list, and every `retryingWriteAll` call is recorded
in an `output` trace together with the success value the environment assigns
to it (the C++ code discards that value).

A null pointer dereference (reading `FDROptions->Fd` or calling through `BQ`
when the shared pointer is empty) is undefined behavior in the source, so the
operations that can hit one return `Option`, with `none` for that case.
-/

namespace XRayFDR

/-- `XRayLogInitStatus` from `xray/xray_log_interface.h`: the init-status
register values, in declaration order. -/
inductive XRayLogInitStatus
  | XRAY_LOG_UNINITIALIZED
  | XRAY_LOG_INITIALIZING
  | XRAY_LOG_INITIALIZED
  | XRAY_LOG_FINALIZING
  | XRAY_LOG_FINALIZED
deriving DecidableEq, Repr

/-- `XRayLogFlushStatus` from `xray/xray_log_interface.h`: the flush-status
register values. -/
inductive XRayLogFlushStatus
  | XRAY_LOG_NOT_FLUSHING
  | XRAY_LOG_FLUSHING
  | XRAY_LOG_FLUSHED
deriving DecidableEq, Repr

/-- `XRayEntryType`: the entry-type tag passed to the event capture hook. -/
inductive XRayEntryType
  | ENTRY
  | EXIT
  | TAIL
deriving DecidableEq, Repr

/-- `FileTypes` from `xray/xray_records.h`: the file-type tag of the header. -/
inductive FileTypes
  | NAIVE_LOG
  | FDR_LOG
deriving DecidableEq, Repr

/-- Modelled from the spec: `FDRLoggingOptions` (declared in
`xray_fdr_logging.h`, not part of the sources here) holds at least the target
file descriptor, with `-1` meaning "unset, resolve a default at flush time". -/
structure FDRLoggingOptions where
  Fd : Int
deriving DecidableEq, Repr

/-- Stands for the C++ `sizeof(FDRLoggingOptions)`.  The code only ever
compares the caller-supplied `OptionsSize` against it for equality, so the
concrete value is irrelevant to every claim; we fix one so the model is
executable. -/
def sizeofFDRLoggingOptions : Nat := 8

/-- One `BufferQueue::Buffer` as seen by `fdrLoggingFlush`'s `apply` callback:
`data` models the byte range `[B.Buffer, B.Buffer + B.Size)`, so the C++
`B.Size` is `data.length`. -/
structure Buffer where
  data : List Nat
deriving DecidableEq, Repr

/-- The external `BufferQueue` collaborator, reduced to what this file
observes of it: `ConfiguredBufferSize()` (the `BufferSize` passed to its
constructor), the sequence of used buffers its `apply` member enumerates, and
whether `finalize()` has been called on it. -/
structure BufferQueue where
  configuredBufferSize : Nat
  usedBuffers : List Buffer
  finalized : Bool
deriving DecidableEq, Repr

/-- `XRayFileHeader` from `xray/xray_records.h`, restricted to the fields
`fdrLoggingFlush` assigns.  `LogType` is the C++ field `Type` (a Lean
keyword).  `FdrData` carries the per-buffer size
(`FdrAdditionalHeaderData.ThreadBufferSize`). -/
structure XRayFileHeader where
  Version : Nat
  LogType : FileTypes
  CycleFrequency : Nat
  ConstantTSC : Nat
  NonstopTSC : Nat
  FdrData : Nat
deriving DecidableEq, Repr

/-- One `retryingWriteAll` call issued by the flush path: either the file
header or one buffer's byte range. -/
inductive WriteEvent
  | headerWrite (h : XRayFileHeader)
  | bufferWrite (bytes : List Nat)
deriving DecidableEq, Repr

/-- The process-wide mutable state of `xray_fdr_logging.cc`: the two status
registers, the shared `BufferQueue` handle `BQ` (empty shared pointer is
`none`), the `FDROptions` snapshot, whether `__xray_set_handler` installed the
hook, plus the observable effect traces (`Report` diagnostics and
`retryingWriteAll` calls with the success value the environment gave each). -/
structure FDRState where
  LoggingStatus : XRayLogInitStatus
  LogFlushStatus : XRayLogFlushStatus
  BQ : Option BufferQueue
  FDROptions : Option FDRLoggingOptions
  handlerInstalled : Bool
  reports : List String
  output : List (WriteEvent × Bool)
deriving DecidableEq, Repr

/-- Environment: results of the external collaborators used by init and
flush.  `writeOk n` is the success value `retryingWriteAll` would report for
the n-th write of a flush (the C++ code discards it).  `bqCtorSuccess` and
`bqCtorUsedBuffers` determine the `Success` out-parameter and the eventual
used-buffer enumeration of a `BufferQueue` constructed during this run. -/
structure Env where
  probeRequiredCPUFeatures : Bool
  tscFrequency : Nat
  getLogFD : Int
  bqCtorSuccess : Bool
  bqCtorUsedBuffers : List Buffer
  writeOk : Nat → Bool

/-- Modelled from the spec: `NanosecondsPerSecond` from `xray_tsc.h` (not part
of the sources here), the fallback cycle frequency of one billion, i.e.
nanosecond ticks. -/
def NanosecondsPerSecond : Nat := 1000000000

/-- The external `BufferQueue(BufferSize, BufferMax, Success)` constructor:
produces a queue whose `ConfiguredBufferSize()` is `BufferSize`, with the
environment supplying the `Success` out-parameter and the used buffers the
queue will report.  `BufferMax` does not reach any observation this file
makes, but is kept for fidelity to the call. -/
def BufferQueue.construct (BufferSize BufferMax : Nat) (env : Env) :
    BufferQueue × Bool :=
  ({ configuredBufferSize := BufferSize,
     usedBuffers := env.bqCtorUsedBuffers,
     finalized := false },
   env.bqCtorSuccess)

/-- `fdrLoggingInit` (`xray_fdr_logging.cc:52-82`).
1. `OptionsSize != sizeof(FDRLoggingOptions)`: return the current
   `LoggingStatus`, no other effect.
2. CAS `LoggingStatus: UNINITIALIZED -> INITIALIZING`; on failure return the
   observed status, no other effect.
3. Copy the options blob into `FDROptions`; construct the `BufferQueue` into
   `BQ` (the global is assigned even when construction fails); on failure
   `Report("BufferQueue init failed.\n")` and return `UNINITIALIZED`, leaving
   `LoggingStatus` at `INITIALIZING`.
4. On success install the handler, store `INITIALIZED`, report success and
   return `INITIALIZED`. -/
def fdrLoggingInit (env : Env) (BufferSize BufferMax : Nat)
    (Options : FDRLoggingOptions) (OptionsSize : Nat) (s : FDRState) :
    XRayLogInitStatus × FDRState :=
  if OptionsSize ≠ sizeofFDRLoggingOptions then
    (s.LoggingStatus, s)
  else if s.LoggingStatus ≠ XRayLogInitStatus.XRAY_LOG_UNINITIALIZED then
    (s.LoggingStatus, s)
  else
    let pool := BufferQueue.construct BufferSize BufferMax env
    let s1 : FDRState :=
      { s with
        LoggingStatus := XRayLogInitStatus.XRAY_LOG_INITIALIZING,
        FDROptions := some Options,
        BQ := some pool.1 }
    if pool.2 = false then
      (XRayLogInitStatus.XRAY_LOG_UNINITIALIZED,
       { s1 with reports := s1.reports ++ ["BufferQueue init failed.\n"] })
    else
      (XRayLogInitStatus.XRAY_LOG_INITIALIZED,
       { s1 with
         handlerInstalled := true,
         LoggingStatus := XRayLogInitStatus.XRAY_LOG_INITIALIZED,
         reports := s1.reports ++ ["XRay FDR init successful.\n"] })

/-- `int Fd = FDROptions->Fd; if (Fd == -1) Fd = getLogFD();`
(`xray_fdr_logging.cc:111-113`). -/
def resolveFd (env : Env) (opts : FDRLoggingOptions) : Int :=
  if opts.Fd = -1 then env.getLogFD else opts.Fd

/-- The `XRayFileHeader` value built by `fdrLoggingFlush`
(`xray_fdr_logging.cc:121-130`): version 1, type `FDR_LOG`, cycle frequency
from `getTSCFrequency()` when `probeRequiredCPUFeatures()` holds and
`NanosecondsPerSecond` otherwise, both TSC flags hard-coded to 1, and
`FdrData` carrying `LocalBQ->ConfiguredBufferSize()`. -/
def flushHeader (env : Env) (q : BufferQueue) : XRayFileHeader :=
  { Version := 1,
    LogType := FileTypes.FDR_LOG,
    CycleFrequency :=
      if env.probeRequiredCPUFeatures then env.tscFrequency
      else NanosecondsPerSecond,
    ConstantTSC := 1,
    NonstopTSC := 1,
    FdrData := q.configuredBufferSize }

/-- Pair the n-th write event of a flush with the success value `env.writeOk`
assigns to that `retryingWriteAll` call (the code never inspects it). -/
def attachWriteResults (g : Nat → Bool) : List WriteEvent → Nat →
    List (WriteEvent × Bool)
  | [], _ => []
  | e :: es, i => (e, g i) :: attachWriteResults g es (i + 1)

/-- The sequence of `retryingWriteAll` calls a flush issues over queue `q`:
the header first, then, via `LocalBQ->apply`, each used buffer whose
`B.Size > 0`, in enumeration order, with no padding or per-buffer header
(`xray_fdr_logging.cc:131-140`). -/
def flushWriteEvents (env : Env) (q : BufferQueue) : List WriteEvent :=
  WriteEvent.headerWrite (flushHeader env q) ::
    (q.usedBuffers.filter (fun b => 0 < b.data.length)).map
      (fun b => WriteEvent.bufferWrite b.data)

/-- `fdrLoggingFlush` (`xray_fdr_logging.cc:85-145`).
1. `LoggingStatus != FINALIZED`: return `NOT_FLUSHING`, no other effect.
2. CAS `LogFlushStatus: NOT_FLUSHING -> FLUSHING`; on failure return the
   observed flush status, no other effect.
3. Read `FDROptions->Fd` (undefined behavior, `none`, if `FDROptions` is
   null); resolve via `getLogFD()` when `-1`; if still `-1`, store and return
   `NOT_FLUSHING`.
4. Build the header and write it, then write each used buffer of the local
   queue copy (undefined behavior if `BQ` is null), ignoring every write's
   result; store and return `FLUSHED`. -/
def fdrLoggingFlush (env : Env) (s : FDRState) :
    Option (XRayLogFlushStatus × FDRState) :=
  if s.LoggingStatus ≠ XRayLogInitStatus.XRAY_LOG_FINALIZED then
    some (XRayLogFlushStatus.XRAY_LOG_NOT_FLUSHING, s)
  else if s.LogFlushStatus ≠ XRayLogFlushStatus.XRAY_LOG_NOT_FLUSHING then
    some (s.LogFlushStatus, s)
  else
    match s.FDROptions with
    | none => none
    | some opts =>
      let s1 : FDRState :=
        { s with LogFlushStatus := XRayLogFlushStatus.XRAY_LOG_FLUSHING }
      let Fd := resolveFd env opts
      if Fd = -1 then
        some (XRayLogFlushStatus.XRAY_LOG_NOT_FLUSHING,
              { s1 with
                LogFlushStatus := XRayLogFlushStatus.XRAY_LOG_NOT_FLUSHING })
      else
        match s1.BQ with
        | none => none
        | some localBQ =>
          some (XRayLogFlushStatus.XRAY_LOG_FLUSHED,
                { s1 with
                  LogFlushStatus := XRayLogFlushStatus.XRAY_LOG_FLUSHED,
                  output := s1.output ++
                    attachWriteResults env.writeOk
                      (flushWriteEvents env localBQ) 0 })

/-- `fdrLoggingFinalize` (`xray_fdr_logging.cc:147-163`): CAS
`LoggingStatus: INITIALIZED -> FINALIZING`, returning the observed status on
failure; on success call `BQ->finalize()` (undefined behavior, `none`, if
`BQ` is null) and store and return `FINALIZED`. -/
def fdrLoggingFinalize (s : FDRState) : Option (XRayLogInitStatus × FDRState) :=
  if s.LoggingStatus ≠ XRayLogInitStatus.XRAY_LOG_INITIALIZED then
    some (s.LoggingStatus, s)
  else
    match s.BQ with
    | none => none
    | some q =>
      some (XRayLogInitStatus.XRAY_LOG_FINALIZED,
            { s with
              LoggingStatus := XRayLogInitStatus.XRAY_LOG_FINALIZED,
              BQ := some { q with finalized := true } })

/-- The spin loop of `fdrLoggingReset` (`xray_fdr_logging.cc:176-185`) run
without concurrent interference on `LogFlushStatus`.  The loop is
`while (CAS_weak(LogFlushStatus, &Current, NOT_FLUSHING)) ...` with `Current`
preset to `FLUSHED`, i.e. it keeps iterating only while the CAS SUCCEEDS:
* register holds `FLUSHED`: first CAS succeeds and stores `NOT_FLUSHING`;
  `Current` (still `FLUSHED`) is not `NOT_FLUSHING`, so the body re-arms
  `Current := FLUSHED` and iterates; the second CAS fails (register now
  `NOT_FLUSHING`) and the loop exits — final value `NOT_FLUSHING`;
* register holds `NOT_FLUSHING`: the first CAS fails and the loop exits at
  once — final value `NOT_FLUSHING`;
* register holds `FLUSHING`: the first CAS fails and the loop exits at once
  WITHOUT waiting — final value still `FLUSHING`. -/
def resetFlushSpin (fs : XRayLogFlushStatus) : XRayLogFlushStatus :=
  if fs = XRayLogFlushStatus.XRAY_LOG_FLUSHED then
    XRayLogFlushStatus.XRAY_LOG_NOT_FLUSHING
  else
    fs

/-- `fdrLoggingReset` (`xray_fdr_logging.cc:165-189`): CAS
`LoggingStatus: FINALIZED -> INITIALIZED`.  On SUCCESS (status was
`FINALIZED`) it returns the observed value `FINALIZED` immediately, releasing
nothing.  On failure (any other status) it proceeds: `BQ.reset()` clears the
shared handle, the spin loop runs on `LogFlushStatus`, and it returns
`UNINITIALIZED`, never touching `LoggingStatus` on this path. -/
def fdrLoggingReset (s : FDRState) : XRayLogInitStatus × FDRState :=
  if s.LoggingStatus = XRayLogInitStatus.XRAY_LOG_FINALIZED then
    (XRayLogInitStatus.XRAY_LOG_FINALIZED,
     { s with LoggingStatus := XRayLogInitStatus.XRAY_LOG_INITIALIZED })
  else
    let s1 : FDRState := { s with BQ := none }
    (XRayLogInitStatus.XRAY_LOG_UNINITIALIZED,
     { s1 with LogFlushStatus := resetFlushSpin s1.LogFlushStatus })

/-- `timespec` as read by `clock_gettime`. -/
structure Timespec where
  tv_sec : Int
  tv_nsec : Int
deriving DecidableEq, Repr

/-- Environment of the event capture hook: the CPU-feature probe result, the
`readTSC(CPU)` hardware read (counter value and CPU out-parameter), and the
`clock_gettime(CLOCK_REALTIME, &TS)` return value and filled `timespec`. -/
structure HookEnv where
  probeRequiredCPUFeatures : Bool
  readTSCValue : Nat
  readTSCCPU : Nat
  clockGettimeResult : Int
  clockGettimeTS : Timespec

/-- The arguments `fdrLoggingHandleArg0` hands to the external record encoder
`__xray_fdr_internal::processFunctionHook` (`xray_fdr_logging.cc:213-214`):
function id, entry type, timestamp, CPU, and the process-wide status register
and `BQ` handle. -/
structure EncoderCall where
  FuncId : Int
  Entry : XRayEntryType
  TSC : Nat
  CPU : Nat
  status : XRayLogInitStatus
  poolHandle : Option BufferQueue
deriving DecidableEq, Repr

/-- `fdrLoggingHandleArg0` (`xray_fdr_logging.cc:191-215`).  With the
required CPU features, `readTSC(CPU)` supplies counter and CPU.  Otherwise:
`clock_gettime(CLOCK_REALTIME, &TS)`; when it returns nonzero, `Report` a
diagnostic and zero `TS`; fix `CPU = 0` and synthesize
`TSC = TS.tv_sec * NanosecondsPerSecond + TS.tv_nsec` in `uint64_t`
arithmetic (reduced mod `2 ^ 64`).  Then delegate to the record encoder. -/
def fdrLoggingHandleArg0 (env : HookEnv) (FuncId : Int) (Entry : XRayEntryType)
    (s : FDRState) : EncoderCall × FDRState :=
  if env.probeRequiredCPUFeatures then
    ({ FuncId := FuncId, Entry := Entry, TSC := env.readTSCValue,
       CPU := env.readTSCCPU, status := s.LoggingStatus, poolHandle := s.BQ },
     s)
  else
    let step :=
      if env.clockGettimeResult ≠ 0 then
        ((⟨0, 0⟩ : Timespec),
         { s with
           reports := s.reports ++ ["clock_gettime(2) return %d, errno=%d"] })
      else
        (env.clockGettimeTS, s)
    let TS := step.1
    let s1 := step.2
    ({ FuncId := FuncId, Entry := Entry,
       TSC := ((TS.tv_sec * (NanosecondsPerSecond : Int) + TS.tv_nsec) %
                 ((2 : Int) ^ 64)).toNat,
       CPU := 0, status := s1.LoggingStatus, poolHandle := s1.BQ },
     s1)

/-- A baseline process state: both registers at their static initializers
(`UNINITIALIZED`, `NOT_FLUSHING`), no queue, no options, nothing reported or
written. -/
def state0 : FDRState :=
  { LoggingStatus := XRayLogInitStatus.XRAY_LOG_UNINITIALIZED,
    LogFlushStatus := XRayLogFlushStatus.XRAY_LOG_NOT_FLUSHING,
    BQ := none,
    FDROptions := none,
    handlerInstalled := false,
    reports := [],
    output := [] }

/-- A concrete environment used by the evaluation lemmas. -/
def env0 : Env :=
  { probeRequiredCPUFeatures := true,
    tscFrequency := 3000000000,
    getLogFD := 7,
    bqCtorSuccess := true,
    bqCtorUsedBuffers := [⟨[10, 11, 12]⟩, ⟨[]⟩, ⟨[20, 21]⟩],
    writeOk := fun _ => true }

/-- Byte count a write event contributes to the file payload (the header is
metadata, not payload). -/
def writeEventLength : WriteEvent → Nat
  | WriteEvent.headerWrite _ => 0
  | WriteEvent.bufferWrite bs => bs.length

/-- Total payload length of a write trace: the bytes of all buffer writes. -/
def payloadLength (events : List WriteEvent) : Nat :=
  (events.map writeEventLength).sum

/-- A concrete, already-finalized queue used by the evaluation lemmas. -/
def pool0 : BufferQueue :=
  { configuredBufferSize := 4096,
    usedBuffers := [⟨[10, 11, 12]⟩, ⟨[]⟩, ⟨[20, 21]⟩],
    finalized := true }

/-- A concrete hook environment on the fallback (no TSC) path with a
successful wall-clock read of 2 s + 5 ns. -/
def hookEnv0 : HookEnv :=
  { probeRequiredCPUFeatures := false,
    readTSCValue := 0,
    readTSCCPU := 0,
    clockGettimeResult := 0,
    clockGettimeTS := ⟨2, 5⟩ }

/-- Dropping the per-call success values recovers the event sequence. -/
theorem map_fst_attachWriteResults (g : Nat → Bool) (l : List WriteEvent)
    (i : Nat) : (attachWriteResults g l i).map Prod.fst = l := by
  induction l generalizing i with
  | nil => rfl
  | cons e es ih => simp [attachWriteResults, ih]

/-- Skipping zero-length buffers does not change the total of the lengths. -/
theorem sum_lengths_filter_pos (l : List Buffer) :
    ((l.filter fun b => 0 < b.data.length).map fun b => b.data.length).sum =
      (l.map fun b => b.data.length).sum := by
  induction l with
  | nil => rfl
  | cons b bs ih =>
    by_cases h : 0 < b.data.length
    · simp [List.filter_cons, h, ih]
    · have h0 : b.data.length = 0 := Nat.eq_zero_of_not_pos h
      simp [List.filter_cons, h, ih, h0]

/-- The payload of one flush's write sequence is the sum of the used lengths
the queue reports, zero-length buffers contributing nothing. -/
theorem payloadLength_flushWriteEvents (env : Env) (q : BufferQueue) :
    payloadLength (flushWriteEvents env q) =
      (q.usedBuffers.map fun b => b.data.length).sum := by
  simp only [payloadLength, flushWriteEvents, List.map_cons, List.map_map,
    List.sum_cons, writeEventLength]
  rw [show ((writeEventLength ∘ fun b => WriteEvent.bufferWrite b.data) :
        Buffer → Nat) = fun b => b.data.length from rfl]
  simpa using sum_lengths_filter_pos q.usedBuffers

/-- C1: the claim says a Reset at `Finalized` with no flush in flight
releases the pool handle and returns `Uninitialized`.  The code does the
opposite: at `LoggingStatus = FINALIZED`, `LogFlushStatus = NOT_FLUSHING` and
a pool installed, its CAS succeeds, so it returns `FINALIZED` at once, keeps
the pool handle and moves `LoggingStatus` to `INITIALIZED` — the
spec-documented branch inversion. -/
theorem reset_at_finalized_keeps_pool_and_returns_finalized :
    fdrLoggingReset
      { state0 with
        LoggingStatus := XRayLogInitStatus.XRAY_LOG_FINALIZED,
        BQ := some pool0 } =
    (XRayLogInitStatus.XRAY_LOG_FINALIZED,
     { state0 with
       LoggingStatus := XRayLogInitStatus.XRAY_LOG_INITIALIZED,
       BQ := some pool0 }) := by
  decide

/-- C3: the claim says Reset, once past its status CAS, never completes while
`FlushStatus` is `Flushing`.  The code's loop condition is the CAS itself, so
observing `FLUSHING` makes the CAS fail and the loop exit immediately: from
`LoggingStatus = INITIALIZED` (so Reset proceeds past the CAS) and
`LogFlushStatus = FLUSHING`, Reset completes, returning `UNINITIALIZED` with
`LogFlushStatus` still `FLUSHING`. -/
theorem reset_completes_while_flushing :
    fdrLoggingReset
      { state0 with
        LoggingStatus := XRayLogInitStatus.XRAY_LOG_INITIALIZED,
        LogFlushStatus := XRayLogFlushStatus.XRAY_LOG_FLUSHING,
        BQ := some pool0 } =
    (XRayLogInitStatus.XRAY_LOG_UNINITIALIZED,
     { state0 with
       LoggingStatus := XRayLogInitStatus.XRAY_LOG_INITIALIZED,
       LogFlushStatus := XRayLogFlushStatus.XRAY_LOG_FLUSHING,
       BQ := none }) := by
  decide

/-- C10: for every `LoggingStatus` other than `FINALIZED`, Reset clears the
pool handle and returns `UNINITIALIZED`, leaving `LoggingStatus` itself (and
everything but `BQ` and `LogFlushStatus`) unchanged; only at `FINALIZED` does
it skip the release, set `LoggingStatus` to `INITIALIZED`, and return
`FINALIZED`. -/
theorem reset_dichotomy (s : FDRState) :
    (s.LoggingStatus ≠ XRayLogInitStatus.XRAY_LOG_FINALIZED →
      fdrLoggingReset s =
        (XRayLogInitStatus.XRAY_LOG_UNINITIALIZED,
         { s with
           BQ := none,
           LogFlushStatus := resetFlushSpin s.LogFlushStatus })) ∧
    (s.LoggingStatus = XRayLogInitStatus.XRAY_LOG_FINALIZED →
      fdrLoggingReset s =
        (XRayLogInitStatus.XRAY_LOG_FINALIZED,
         { s with
           LoggingStatus := XRayLogInitStatus.XRAY_LOG_INITIALIZED })) := by
  constructor
  · intro h
    simp [fdrLoggingReset, h]
  · intro h
    simp [fdrLoggingReset, h]

/-- Witness for C10: both branches evaluated at concrete states — Reset at
`INITIALIZED` clears the pool and reports `UNINITIALIZED` while the register
still reads `INITIALIZED`; Reset at `FINALIZED` keeps the pool and reports
`FINALIZED`, moving the register to `INITIALIZED`. -/
theorem reset_dichotomy_witness :
    ({ state0 with
       LoggingStatus := XRayLogInitStatus.XRAY_LOG_INITIALIZED,
       BQ := some pool0 } : FDRState).LoggingStatus ≠
        XRayLogInitStatus.XRAY_LOG_FINALIZED ∧
    fdrLoggingReset
      { state0 with
        LoggingStatus := XRayLogInitStatus.XRAY_LOG_INITIALIZED,
        BQ := some pool0 } =
      (XRayLogInitStatus.XRAY_LOG_UNINITIALIZED,
       { state0 with
         LoggingStatus := XRayLogInitStatus.XRAY_LOG_INITIALIZED,
         BQ := none }) :=
  ⟨by decide,
   by
    have h :=
      (reset_dichotomy
        { state0 with
          LoggingStatus := XRayLogInitStatus.XRAY_LOG_INITIALIZED,
          BQ := some pool0 }).1 (by decide)
    simpa [resetFlushSpin, state0] using h⟩

/-- C2: when Initialize wins the CAS out of `UNINITIALIZED` (here: the
register holds `UNINITIALIZED`) with a matching options size, and pool
construction reports failure, it emits the `BufferQueue init failed`
diagnostic and returns `UNINITIALIZED` while leaving the status register at
`INITIALIZING` (not reverted). -/
theorem init_pool_failure_leaves_status (env : Env) (BufferSize BufferMax : Nat)
    (Options : FDRLoggingOptions) (s : FDRState)
    (hs : s.LoggingStatus = XRayLogInitStatus.XRAY_LOG_UNINITIALIZED)
    (hf : env.bqCtorSuccess = false) :
    fdrLoggingInit env BufferSize BufferMax Options sizeofFDRLoggingOptions s =
      (XRayLogInitStatus.XRAY_LOG_UNINITIALIZED,
       { s with
         LoggingStatus := XRayLogInitStatus.XRAY_LOG_INITIALIZING,
         FDROptions := some Options,
         BQ := some (BufferQueue.construct BufferSize BufferMax env).1,
         reports := s.reports ++ ["BufferQueue init failed.\n"] }) := by
  simp [fdrLoggingInit, hs, BufferQueue.construct, hf]

/-- Witness for C2: concrete failing construction — the returned status is
`UNINITIALIZED`, the register is left at `INITIALIZING`, the diagnostic is
recorded. -/
theorem init_pool_failure_leaves_status_witness :
    state0.LoggingStatus = XRayLogInitStatus.XRAY_LOG_UNINITIALIZED ∧
    ({ env0 with bqCtorSuccess := false } : Env).bqCtorSuccess = false ∧
    fdrLoggingInit { env0 with bqCtorSuccess := false } 4096 2 ⟨-1⟩
        sizeofFDRLoggingOptions state0 =
      (XRayLogInitStatus.XRAY_LOG_UNINITIALIZED,
       { state0 with
         LoggingStatus := XRayLogInitStatus.XRAY_LOG_INITIALIZING,
         FDROptions := some ⟨-1⟩,
         BQ := some (BufferQueue.construct 4096 2
           { env0 with bqCtorSuccess := false }).1,
         reports := state0.reports ++ ["BufferQueue init failed.\n"] }) :=
  ⟨rfl, rfl,
   init_pool_failure_leaves_status { env0 with bqCtorSuccess := false }
     4096 2 ⟨-1⟩ state0 rfl rfl⟩

/-- C4: with the init register at anything but `FINALIZED`, Flush returns
`NOT_FLUSHING` and the state is returned untouched — no write is issued and
`LogFlushStatus` is unchanged. -/
theorem flush_requires_finalized (env : Env) (s : FDRState)
    (h : s.LoggingStatus ≠ XRayLogInitStatus.XRAY_LOG_FINALIZED) :
    fdrLoggingFlush env s =
      some (XRayLogFlushStatus.XRAY_LOG_NOT_FLUSHING, s) := by
  simp [fdrLoggingFlush, h]

/-- Witness for C4: Flush on the freshly initialized register (`INITIALIZED`,
not `FINALIZED`) returns `NOT_FLUSHING` with the state unchanged. -/
theorem flush_requires_finalized_witness :
    ({ state0 with
       LoggingStatus := XRayLogInitStatus.XRAY_LOG_INITIALIZED,
       BQ := some pool0 } : FDRState).LoggingStatus ≠
        XRayLogInitStatus.XRAY_LOG_FINALIZED ∧
    fdrLoggingFlush env0
      { state0 with
        LoggingStatus := XRayLogInitStatus.XRAY_LOG_INITIALIZED,
        BQ := some pool0 } =
      some (XRayLogFlushStatus.XRAY_LOG_NOT_FLUSHING,
       { state0 with
         LoggingStatus := XRayLogInitStatus.XRAY_LOG_INITIALIZED,
         BQ := some pool0 }) :=
  ⟨by decide,
   flush_requires_finalized env0
     { state0 with
       LoggingStatus := XRayLogInitStatus.XRAY_LOG_INITIALIZED,
       BQ := some pool0 } (by decide)⟩

/-- C5: with a mismatched options-block size, Initialize returns the current
`LoggingStatus` and the state is returned untouched — no register change, no
pool, no diagnostic — for every prior state. -/
theorem init_size_mismatch_noop (env : Env) (BufferSize BufferMax : Nat)
    (Options : FDRLoggingOptions) (OptionsSize : Nat) (s : FDRState)
    (h : OptionsSize ≠ sizeofFDRLoggingOptions) :
    fdrLoggingInit env BufferSize BufferMax Options OptionsSize s =
      (s.LoggingStatus, s) := by
  simp [fdrLoggingInit, h]

/-- Witness for C5: a 4-byte blob against the expected size is rejected with
the register (here `FINALIZED`) and the whole state unchanged. -/
theorem init_size_mismatch_noop_witness :
    (4 : Nat) ≠ sizeofFDRLoggingOptions ∧
    fdrLoggingInit env0 4096 2 ⟨-1⟩ 4
        { state0 with
          LoggingStatus := XRayLogInitStatus.XRAY_LOG_FINALIZED } =
      (XRayLogInitStatus.XRAY_LOG_FINALIZED,
       { state0 with
         LoggingStatus := XRayLogInitStatus.XRAY_LOG_FINALIZED }) :=
  ⟨by decide,
   init_size_mismatch_noop env0 4096 2 ⟨-1⟩ 4
     { state0 with LoggingStatus := XRayLogInitStatus.XRAY_LOG_FINALIZED }
     (by decide)⟩

/-- Payload length distributes over trace concatenation. -/
theorem payloadLength_append (a b : List WriteEvent) :
    payloadLength (a ++ b) = payloadLength a + payloadLength b := by
  simp [payloadLength]

/-- C7: when a flush reaches its write sequence, the header it writes carries
`getTSCFrequency()` as `CycleFrequency` when the required CPU features probe
succeeds, and exactly one billion otherwise. -/
theorem flush_header_cycle_frequency (env : Env) (s : FDRState)
    (opts : FDRLoggingOptions) (q : BufferQueue)
    (hs : s.LoggingStatus = XRayLogInitStatus.XRAY_LOG_FINALIZED)
    (hfl : s.LogFlushStatus = XRayLogFlushStatus.XRAY_LOG_NOT_FLUSHING)
    (ho : s.FDROptions = some opts)
    (hq : s.BQ = some q)
    (hfd : resolveFd env opts ≠ -1) :
    ∃ s3, fdrLoggingFlush env s =
        some (XRayLogFlushStatus.XRAY_LOG_FLUSHED, s3) ∧
      s3.output.map Prod.fst = s.output.map Prod.fst ++
        (WriteEvent.headerWrite (flushHeader env q) ::
          (q.usedBuffers.filter fun b => 0 < b.data.length).map
            (fun b => WriteEvent.bufferWrite b.data)) ∧
      (env.probeRequiredCPUFeatures = true →
        (flushHeader env q).CycleFrequency = env.tscFrequency) ∧
      (env.probeRequiredCPUFeatures = false →
        (flushHeader env q).CycleFrequency = 1000000000) := by
  have hflush : fdrLoggingFlush env s =
      some (XRayLogFlushStatus.XRAY_LOG_FLUSHED,
        { s with
          LogFlushStatus := XRayLogFlushStatus.XRAY_LOG_FLUSHED,
          output := s.output ++
            attachWriteResults env.writeOk (flushWriteEvents env q) 0 }) := by
    simp [fdrLoggingFlush, hs, hfl, ho, hq, hfd]
  refine ⟨_, hflush, ?_, ?_, ?_⟩
  · simp [map_fst_attachWriteResults, flushWriteEvents]
  · intro hp
    simp [flushHeader, hp]
  · intro hp
    simp [flushHeader, hp, NanosecondsPerSecond]

/-- Witness for C7: a concrete flush on the fallback path (probe fails) whose
emitted header declares a frequency of exactly one billion. -/
theorem flush_header_cycle_frequency_witness :
    ({ state0 with
       LoggingStatus := XRayLogInitStatus.XRAY_LOG_FINALIZED,
       FDROptions := some ⟨-1⟩,
       BQ := some pool0 } : FDRState).LoggingStatus =
        XRayLogInitStatus.XRAY_LOG_FINALIZED ∧
    resolveFd { env0 with probeRequiredCPUFeatures := false } ⟨-1⟩ ≠ -1 ∧
    (∃ s3,
      fdrLoggingFlush { env0 with probeRequiredCPUFeatures := false }
        { state0 with
          LoggingStatus := XRayLogInitStatus.XRAY_LOG_FINALIZED,
          FDROptions := some ⟨-1⟩,
          BQ := some pool0 } =
        some (XRayLogFlushStatus.XRAY_LOG_FLUSHED, s3) ∧
      s3.output.map Prod.fst =
        ({ state0 with
           LoggingStatus := XRayLogInitStatus.XRAY_LOG_FINALIZED,
           FDROptions := some ⟨-1⟩,
           BQ := some pool0 } : FDRState).output.map Prod.fst ++
        (WriteEvent.headerWrite
            (flushHeader { env0 with probeRequiredCPUFeatures := false }
              pool0) ::
          (pool0.usedBuffers.filter fun b => 0 < b.data.length).map
            (fun b => WriteEvent.bufferWrite b.data)) ∧
      (({ env0 with probeRequiredCPUFeatures := false } :
          Env).probeRequiredCPUFeatures = true →
        (flushHeader { env0 with probeRequiredCPUFeatures := false }
            pool0).CycleFrequency =
          ({ env0 with probeRequiredCPUFeatures := false } :
            Env).tscFrequency) ∧
      (({ env0 with probeRequiredCPUFeatures := false } :
          Env).probeRequiredCPUFeatures = false →
        (flushHeader { env0 with probeRequiredCPUFeatures := false }
            pool0).CycleFrequency = 1000000000)) :=
  ⟨rfl, by decide,
   flush_header_cycle_frequency { env0 with probeRequiredCPUFeatures := false }
     { state0 with
       LoggingStatus := XRayLogInitStatus.XRAY_LOG_FINALIZED,
       FDROptions := some ⟨-1⟩,
       BQ := some pool0 }
     ⟨-1⟩ pool0 rfl rfl rfl rfl (by decide)⟩

/-- C8: once Flush has resolved a file descriptor, it stores and returns
`FLUSHED` for every assignment of per-write success values, the write
sequence it attempts is the same single pass either way, and no rollback or
retry of the whole operation occurs. -/
theorem flush_ignores_write_failures (env : Env) (g1 g2 : Nat → Bool)
    (s : FDRState) (opts : FDRLoggingOptions) (q : BufferQueue)
    (hs : s.LoggingStatus = XRayLogInitStatus.XRAY_LOG_FINALIZED)
    (hfl : s.LogFlushStatus = XRayLogFlushStatus.XRAY_LOG_NOT_FLUSHING)
    (ho : s.FDROptions = some opts)
    (hq : s.BQ = some q)
    (hfd : resolveFd env opts ≠ -1) :
    ∃ s3 s4,
      fdrLoggingFlush { env with writeOk := g1 } s =
        some (XRayLogFlushStatus.XRAY_LOG_FLUSHED, s3) ∧
      fdrLoggingFlush { env with writeOk := g2 } s =
        some (XRayLogFlushStatus.XRAY_LOG_FLUSHED, s4) ∧
      s3.LogFlushStatus = XRayLogFlushStatus.XRAY_LOG_FLUSHED ∧
      s4.LogFlushStatus = XRayLogFlushStatus.XRAY_LOG_FLUSHED ∧
      s3.output.map Prod.fst = s.output.map Prod.fst ++ flushWriteEvents env q ∧
      s4.output.map Prod.fst =
        s.output.map Prod.fst ++ flushWriteEvents env q := by
  have hfd1 : resolveFd { env with writeOk := g1 } opts ≠ -1 := hfd
  have hfd2 : resolveFd { env with writeOk := g2 } opts ≠ -1 := hfd
  have hflush1 : fdrLoggingFlush { env with writeOk := g1 } s =
      some (XRayLogFlushStatus.XRAY_LOG_FLUSHED,
        { s with
          LogFlushStatus := XRayLogFlushStatus.XRAY_LOG_FLUSHED,
          output := s.output ++
            attachWriteResults g1 (flushWriteEvents env q) 0 }) := by
    simp [fdrLoggingFlush, hs, hfl, ho, hq, hfd1]
    rfl
  have hflush2 : fdrLoggingFlush { env with writeOk := g2 } s =
      some (XRayLogFlushStatus.XRAY_LOG_FLUSHED,
        { s with
          LogFlushStatus := XRayLogFlushStatus.XRAY_LOG_FLUSHED,
          output := s.output ++
            attachWriteResults g2 (flushWriteEvents env q) 0 }) := by
    simp [fdrLoggingFlush, hs, hfl, ho, hq, hfd2]
    rfl
  refine ⟨_, _, hflush1, hflush2, rfl, rfl, ?_, ?_⟩
  · simp [map_fst_attachWriteResults]
  · simp [map_fst_attachWriteResults]

/-- Witness for C8: the same concrete flush under an all-succeed and an
all-fail write oracle stores `FLUSHED` both times with the same attempted
write sequence. -/
theorem flush_ignores_write_failures_witness :
    resolveFd env0 ⟨7⟩ ≠ -1 ∧
    (∃ s3 s4,
      fdrLoggingFlush { env0 with writeOk := fun _ => true }
        { state0 with
          LoggingStatus := XRayLogInitStatus.XRAY_LOG_FINALIZED,
          FDROptions := some ⟨7⟩,
          BQ := some pool0 } =
        some (XRayLogFlushStatus.XRAY_LOG_FLUSHED, s3) ∧
      fdrLoggingFlush { env0 with writeOk := fun _ => false }
        { state0 with
          LoggingStatus := XRayLogInitStatus.XRAY_LOG_FINALIZED,
          FDROptions := some ⟨7⟩,
          BQ := some pool0 } =
        some (XRayLogFlushStatus.XRAY_LOG_FLUSHED, s4) ∧
      s3.LogFlushStatus = XRayLogFlushStatus.XRAY_LOG_FLUSHED ∧
      s4.LogFlushStatus = XRayLogFlushStatus.XRAY_LOG_FLUSHED ∧
      s3.output.map Prod.fst =
        ({ state0 with
           LoggingStatus := XRayLogInitStatus.XRAY_LOG_FINALIZED,
           FDROptions := some ⟨7⟩,
           BQ := some pool0 } : FDRState).output.map Prod.fst ++
          flushWriteEvents env0 pool0 ∧
      s4.output.map Prod.fst =
        ({ state0 with
           LoggingStatus := XRayLogInitStatus.XRAY_LOG_FINALIZED,
           FDROptions := some ⟨7⟩,
           BQ := some pool0 } : FDRState).output.map Prod.fst ++
          flushWriteEvents env0 pool0) :=
  ⟨by decide,
   flush_ignores_write_failures env0 (fun _ => true) (fun _ => false)
     { state0 with
       LoggingStatus := XRayLogInitStatus.XRAY_LOG_FINALIZED,
       FDROptions := some ⟨7⟩,
       BQ := some pool0 }
     ⟨7⟩ pool0 rfl rfl rfl rfl (by decide)⟩

/-- C6: starting from the uninitialized baseline, a successful Initialize
(pool construction succeeds) followed by Finalize and a Flush whose file
descriptor resolves emits the File Header first — declaring exactly the
per-buffer size supplied to Initialize — followed by the used buffers' bytes
in order with no padding or per-buffer header, zero-length buffers skipped,
and the total payload length equals the sum of the used lengths the pool
reports at flush time. -/
theorem flush_file_format (env : Env) (BufferSize BufferMax : Nat)
    (Options : FDRLoggingOptions) (s : FDRState)
    (hs : s.LoggingStatus = XRayLogInitStatus.XRAY_LOG_UNINITIALIZED)
    (hfl : s.LogFlushStatus = XRayLogFlushStatus.XRAY_LOG_NOT_FLUSHING)
    (hctor : env.bqCtorSuccess = true)
    (hfd : resolveFd env Options ≠ -1) :
    ∃ s1 s2 s3 q,
      fdrLoggingInit env BufferSize BufferMax Options sizeofFDRLoggingOptions
          s = (XRayLogInitStatus.XRAY_LOG_INITIALIZED, s1) ∧
      fdrLoggingFinalize s1 =
        some (XRayLogInitStatus.XRAY_LOG_FINALIZED, s2) ∧
      s2.BQ = some q ∧
      q.configuredBufferSize = BufferSize ∧
      fdrLoggingFlush env s2 =
        some (XRayLogFlushStatus.XRAY_LOG_FLUSHED, s3) ∧
      s3.output.map Prod.fst = s2.output.map Prod.fst ++
        (WriteEvent.headerWrite (flushHeader env q) ::
          (q.usedBuffers.filter fun b => 0 < b.data.length).map
            (fun b => WriteEvent.bufferWrite b.data)) ∧
      (flushHeader env q).FdrData = BufferSize ∧
      payloadLength (s3.output.map Prod.fst) =
        payloadLength (s2.output.map Prod.fst) +
          (q.usedBuffers.map fun b => b.data.length).sum := by
  have h1 : fdrLoggingInit env BufferSize BufferMax Options
      sizeofFDRLoggingOptions s =
      (XRayLogInitStatus.XRAY_LOG_INITIALIZED,
       { s with
         LoggingStatus := XRayLogInitStatus.XRAY_LOG_INITIALIZED,
         FDROptions := some Options,
         BQ := some ⟨BufferSize, env.bqCtorUsedBuffers, false⟩,
         handlerInstalled := true,
         reports := s.reports ++ ["XRay FDR init successful.\n"] }) := by
    simp [fdrLoggingInit, hs, hctor, BufferQueue.construct]
  have h2 : fdrLoggingFinalize
      ({ s with
         LoggingStatus := XRayLogInitStatus.XRAY_LOG_INITIALIZED,
         FDROptions := some Options,
         BQ := some ⟨BufferSize, env.bqCtorUsedBuffers, false⟩,
         handlerInstalled := true,
         reports := s.reports ++ ["XRay FDR init successful.\n"] } :
        FDRState) =
      some (XRayLogInitStatus.XRAY_LOG_FINALIZED,
        { s with
          LoggingStatus := XRayLogInitStatus.XRAY_LOG_FINALIZED,
          FDROptions := some Options,
          BQ := some ⟨BufferSize, env.bqCtorUsedBuffers, true⟩,
          handlerInstalled := true,
          reports := s.reports ++ ["XRay FDR init successful.\n"] }) := by
    simp [fdrLoggingFinalize]
  have h3 : fdrLoggingFlush env
      ({ s with
         LoggingStatus := XRayLogInitStatus.XRAY_LOG_FINALIZED,
         FDROptions := some Options,
         BQ := some ⟨BufferSize, env.bqCtorUsedBuffers, true⟩,
         handlerInstalled := true,
         reports := s.reports ++ ["XRay FDR init successful.\n"] } :
        FDRState) =
      some (XRayLogFlushStatus.XRAY_LOG_FLUSHED,
        { s with
          LoggingStatus := XRayLogInitStatus.XRAY_LOG_FINALIZED,
          LogFlushStatus := XRayLogFlushStatus.XRAY_LOG_FLUSHED,
          FDROptions := some Options,
          BQ := some ⟨BufferSize, env.bqCtorUsedBuffers, true⟩,
          handlerInstalled := true,
          reports := s.reports ++ ["XRay FDR init successful.\n"],
          output := s.output ++
            attachWriteResults env.writeOk
              (flushWriteEvents env ⟨BufferSize, env.bqCtorUsedBuffers, true⟩)
              0 }) := by
    simp [fdrLoggingFlush, hfl, hfd]
  refine ⟨_, _, _, ⟨BufferSize, env.bqCtorUsedBuffers, true⟩,
    h1, h2, rfl, rfl, h3, ?_, rfl, ?_⟩
  · simp [map_fst_attachWriteResults, flushWriteEvents]
  · simp only [List.map_append, map_fst_attachWriteResults]
    rw [payloadLength_append, payloadLength_flushWriteEvents]

/-- Witness for C6: the whole init–finalize–flush scenario evaluated at
concrete inputs (buffer size 4096, two used buffers of 3 and 2 bytes and one
empty buffer, fd 7). -/
theorem flush_file_format_witness :
    state0.LoggingStatus = XRayLogInitStatus.XRAY_LOG_UNINITIALIZED ∧
    env0.bqCtorSuccess = true ∧
    resolveFd env0 ⟨7⟩ ≠ -1 ∧
    (∃ s1 s2 s3 q,
      fdrLoggingInit env0 4096 2 ⟨7⟩ sizeofFDRLoggingOptions state0 =
        (XRayLogInitStatus.XRAY_LOG_INITIALIZED, s1) ∧
      fdrLoggingFinalize s1 =
        some (XRayLogInitStatus.XRAY_LOG_FINALIZED, s2) ∧
      s2.BQ = some q ∧
      q.configuredBufferSize = 4096 ∧
      fdrLoggingFlush env0 s2 =
        some (XRayLogFlushStatus.XRAY_LOG_FLUSHED, s3) ∧
      s3.output.map Prod.fst = s2.output.map Prod.fst ++
        (WriteEvent.headerWrite (flushHeader env0 q) ::
          (q.usedBuffers.filter fun b => 0 < b.data.length).map
            (fun b => WriteEvent.bufferWrite b.data)) ∧
      (flushHeader env0 q).FdrData = 4096 ∧
      payloadLength (s3.output.map Prod.fst) =
        payloadLength (s2.output.map Prod.fst) +
          (q.usedBuffers.map fun b => b.data.length).sum) :=
  ⟨rfl, rfl, by decide,
   flush_file_format env0 4096 2 ⟨7⟩ state0 rfl rfl rfl (by decide)⟩

/-- C9: on the fallback path (required CPU features unavailable) the hook
reads the wall clock; if that read fails it reports a diagnostic and uses a
zeroed time, so the synthesized counter is 0; either way it fixes the CPU at
0 and hands the encoder `tv_sec * NanosecondsPerSecond + tv_nsec` in 64-bit
arithmetic (equal to the plain sum whenever it is nonnegative and below
`2 ^ 64`), together with the process-wide status register and pool handle. -/
theorem hook_fallback_path (env : HookEnv) (FuncId : Int)
    (Entry : XRayEntryType) (s : FDRState)
    (hp : env.probeRequiredCPUFeatures = false) :
    (env.clockGettimeResult ≠ 0 →
      fdrLoggingHandleArg0 env FuncId Entry s =
        ({ FuncId := FuncId, Entry := Entry, TSC := 0, CPU := 0,
           status := s.LoggingStatus, poolHandle := s.BQ },
         { s with
           reports := s.reports ++
             ["clock_gettime(2) return %d, errno=%d"] })) ∧
    (env.clockGettimeResult = 0 →
      fdrLoggingHandleArg0 env FuncId Entry s =
        ({ FuncId := FuncId, Entry := Entry,
           TSC := ((env.clockGettimeTS.tv_sec *
                      (NanosecondsPerSecond : Int) +
                    env.clockGettimeTS.tv_nsec) % ((2 : Int) ^ 64)).toNat,
           CPU := 0, status := s.LoggingStatus, poolHandle := s.BQ },
         s)) ∧
    (env.clockGettimeResult = 0 →
      0 ≤ env.clockGettimeTS.tv_sec * (NanosecondsPerSecond : Int) +
            env.clockGettimeTS.tv_nsec →
      env.clockGettimeTS.tv_sec * (NanosecondsPerSecond : Int) +
          env.clockGettimeTS.tv_nsec < (2 : Int) ^ 64 →
      (fdrLoggingHandleArg0 env FuncId Entry s).1.TSC =
        (env.clockGettimeTS.tv_sec * (NanosecondsPerSecond : Int) +
          env.clockGettimeTS.tv_nsec).toNat) := by
  refine ⟨?_, ?_, ?_⟩
  · intro hc
    simp [fdrLoggingHandleArg0, hp, hc]
  · intro hc
    simp [fdrLoggingHandleArg0, hp, hc]
  · intro hc hlo hhi
    have hhi2 : env.clockGettimeTS.tv_sec * (NanosecondsPerSecond : Int) +
        env.clockGettimeTS.tv_nsec < (18446744073709551616 : Int) := by
      simpa using hhi
    simp [fdrLoggingHandleArg0, hp, hc, Int.emod_eq_of_lt hlo hhi2]

/-- Witness for C9: a successful wall-clock read of 2 s + 5 ns yields a
synthesized counter of 2000000005 with CPU 0. -/
theorem hook_fallback_path_witness :
    hookEnv0.probeRequiredCPUFeatures = false ∧
    hookEnv0.clockGettimeResult = 0 ∧
    fdrLoggingHandleArg0 hookEnv0 42 XRayEntryType.ENTRY state0 =
      ({ FuncId := 42, Entry := XRayEntryType.ENTRY,
         TSC := ((hookEnv0.clockGettimeTS.tv_sec *
                    (NanosecondsPerSecond : Int) +
                  hookEnv0.clockGettimeTS.tv_nsec) %
                   ((2 : Int) ^ 64)).toNat,
         CPU := 0, status := state0.LoggingStatus,
         poolHandle := state0.BQ },
       state0) ∧
    (fdrLoggingHandleArg0 hookEnv0 42 XRayEntryType.ENTRY state0).1.TSC =
      2000000005 :=
  ⟨rfl, rfl,
   (hook_fallback_path hookEnv0 42 XRayEntryType.ENTRY state0 rfl).2.1 rfl,
   by
    have h := (hook_fallback_path hookEnv0 42 XRayEntryType.ENTRY state0
      rfl).2.2 rfl (by decide) (by decide)
    simpa [hookEnv0, NanosecondsPerSecond] using h⟩

end XRayFDR
